import Mathlib

/-!
Verification of ds-sanitize-numbervariancereducer (src/main.py).

The program is a single-pass CLI: it loads a CSV/JSON file into a pandas
DataFrame, rounds one numeric column to a given precision with
`Series.round` (numpy round-half-to-even), and writes the result back.

Shallow embedding:
* a DataFrame is a `Table`: an ordered list of named columns, each column
  a dtype tag plus a list of cells aligned by row index;
* numeric values are modelled as rationals, and `Series.round(precision)`
  as exact round-half-to-even at a power of ten (numpy scales by
  `10 ^ precision`, applies `rint` with ties to even, and scales back);
* `sanitize_number_variance` (src/main.py lines 22-49) returns
  `Except SanitizeError Table`: the KeyError branch is `columnNotFound`
  and the TypeError branch is `notNumericColumn`;
* `main` (src/main.py lines 51-109) is `runMain`, a pure function of the
  parsed arguments and an abstract filesystem `String → Option Table`;
  its observable outcome is the exit code, the error kind, and the write
  event (path, serialization format, table) if the Writer runs.
-/

set_option autoImplicit false

namespace NumberVariance

/-- A pandas column dtype tag, restricted to the kinds the program
distinguishes: integer, float and bool dtypes satisfy
`pd.api.types.is_numeric_dtype`; `object` (string) columns do not. -/
inductive DType where
  | dint
  | dfloat
  | dbool
  | dobject
  deriving DecidableEq, Repr

/-- One cell of a column: a numeric value (int or float, modelled as ℚ),
a boolean, a string, or a null/missing value (pandas NaN). -/
inductive Cell where
  | cnum (q : ℚ)
  | cbool (b : Bool)
  | cstr (s : String)
  | cnull
  deriving DecidableEq, Repr

/-- A column: a dtype tag and the cells, aligned by row index. -/
structure Column where
  dtype : DType
  cells : List Cell
  deriving DecidableEq, Repr

/-- A DataFrame: an ordered sequence of named columns. -/
abbrev Table := List (String × Column)

/-- `pd.api.types.is_numeric_dtype` (src/main.py line 39): true for
integer, floating-point and boolean dtypes, false for object dtype. -/
def is_numeric_dtype : DType → Bool
  | .dint => true
  | .dfloat => true
  | .dbool => true
  | .dobject => false

/-- Round a rational to the nearest integer, ties to even (numpy `rint`). -/
def roundHalfEven (q : ℚ) : ℤ :=
  let f := ⌊q⌋
  if q - f < 1 / 2 then f
  else if 1 / 2 < q - f then f + 1
  else if f % 2 = 0 then f else f + 1

/-- `np.round(q, p)`: scale by `10 ^ p`, round half to even, scale back.
`p` may be negative (round to tens, hundreds, ...). -/
def roundToPrec (p : ℤ) (q : ℚ) : ℚ :=
  (roundHalfEven (q * 10 ^ p) : ℚ) / 10 ^ p

/-- `Series.round(precision)` on one cell: numeric values are rounded,
nulls pass through unchanged (NaN rounds to NaN), and non-numeric cells
(which keep their dtype under pandas round) are left as they are. -/
def roundCell (p : ℤ) : Cell → Cell
  | .cnum q => .cnum (roundToPrec p q)
  | c => c

/-- The two typed failures of the Sanitizer: the KeyError raised by
`df[column_name]` on a missing column, and the TypeError raised on a
non-numeric column (src/main.py lines 39-46). -/
inductive SanitizeError where
  | columnNotFound (name : String)
  | notNumericColumn (name : String) (dtype : DType)
  deriving DecidableEq, Repr

/-- `df[column_name]`: the first column with the given name, or `none`
(pandas raises KeyError) when it is absent. -/
def lookupCol : Table → String → Option Column
  | [], _ => none
  | (n, c) :: rest, name => if n = name then some c else lookupCol rest name

/-- `df[column_name] = series`: replace the named column, leaving every
other column and the column order untouched. -/
def setCol (t : Table) (name : String) (c : Column) : Table :=
  t.map fun e => if e.1 = name then (name, c) else e

/-- `sanitize_number_variance(df, column_name, precision)`
(src/main.py lines 22-49): KeyError on a missing column, TypeError when
`is_numeric_dtype` fails, otherwise replace the column with its rounding. -/
def sanitize_number_variance (df : Table) (column_name : String)
    (precision : ℤ) : Except SanitizeError Table :=
  match lookupCol df column_name with
  | none => .error (.columnNotFound column_name)
  | some col =>
    if is_numeric_dtype col.dtype then
      .ok (setCol df column_name
        ⟨col.dtype, col.cells.map (roundCell precision)⟩)
    else
      .error (.notNumericColumn column_name col.dtype)

/-- The two file formats; `--file_type` is restricted to these by
argparse `choices=['csv','json']` (src/main.py line 19). -/
inductive FileType where
  | csv
  | json
  deriving DecidableEq, Repr

/-- The parsed command-line arguments (src/main.py lines 14-19). -/
structure Args where
  input_file : String
  column_name : String
  precision : ℤ
  output_file : Option String
  file_type : Option FileType
  deriving Repr

/-- File-type inference from the extension (src/main.py lines 66-72):
`input_file.lower().endswith('.csv')` / `.endswith('.json')`, else no
inference. Python's `str.lower` and `str.endswith` are rendered over the
character list: lowercase every character, then test the suffix. -/
def inferFileType (path : String) : Option FileType :=
  let lower := path.data.map Char.toLower
  if List.isSuffixOf ".csv".data lower then some .csv
  else if List.isSuffixOf ".json".data lower then some .json
  else none

/-- The file type used for both the read and the write: the
`--file_type` flag when given, otherwise inferred from the input path;
`none` is the `ValueError("Could not infer file type ...")` branch. -/
def resolveFileType (a : Args) : Option FileType :=
  match a.file_type with
  | some ft => some ft
  | none => inferFileType a.input_file

/-- `output_file = args.output_file if args.output_file else input_file`
(src/main.py line 61). -/
def outputPath (a : Args) : String :=
  a.output_file.getD a.input_file

/-- The handled failure kinds of `main` (src/main.py lines 95-109). -/
inductive MainError where
  | unknownFileType
  | fileNotFound
  | sanitizeFailed (e : SanitizeError)
  deriving DecidableEq, Repr

/-- A call of the Writer: the path written, the serialization format
chosen by `file_type` (src/main.py lines 88-91), and the table. -/
structure WriteEvent where
  path : String
  format : FileType
  table : Table
  deriving DecidableEq, Repr

/-- The observable outcome of one run: the process exit status, the
handled error if any, and the write event if the Writer ran. -/
structure MainOutcome where
  exitCode : ℕ
  err : Option MainError
  written : Option WriteEvent
  deriving DecidableEq, Repr

/-- `main()` (src/main.py lines 51-109) as a pure function of the parsed
arguments and an abstract filesystem mapping a path to the table its
contents parse to (`none` covers FileNotFoundError). Steps in source
order: resolve the file type (ValueError → exit 1 before any read), read
the input, sanitize (KeyError / TypeError → exit 1, Writer skipped),
then write and finish with status 0. -/
def runMain (a : Args) (fs : String → Option Table) : MainOutcome :=
  match resolveFileType a with
  | none => ⟨1, some .unknownFileType, none⟩
  | some ft =>
    match fs a.input_file with
    | none => ⟨1, some .fileNotFound, none⟩
    | some df =>
      match sanitize_number_variance df a.column_name a.precision with
      | .error e => ⟨1, some (.sanitizeFailed e), none⟩
      | .ok df2 => ⟨0, none, some ⟨outputPath a, ft, df2⟩⟩

end NumberVariance

namespace NumberVariance

/-! ### Basic lemmas about the rounding primitive -/

theorem roundHalfEven_intCast (n : ℤ) : roundHalfEven (n : ℚ) = n := by
  unfold roundHalfEven
  rw [Int.floor_intCast]
  norm_num

theorem ten_zpow_ne_zero (p : ℤ) : (10 : ℚ) ^ p ≠ 0 :=
  zpow_ne_zero p (by norm_num)

theorem roundToPrec_idem (p : ℤ) (q : ℚ) :
    roundToPrec p (roundToPrec p q) = roundToPrec p q := by
  unfold roundToPrec
  rw [div_mul_cancel₀ _ (ten_zpow_ne_zero p), roundHalfEven_intCast]

theorem roundCell_idem (p : ℤ) (c : Cell) :
    roundCell p (roundCell p c) = roundCell p c := by
  cases c <;> simp [roundCell, roundToPrec_idem]

theorem roundCell_eq_cnull (p : ℤ) (c : Cell) :
    roundCell p c = Cell.cnull ↔ c = Cell.cnull := by
  cases c <;> simp [roundCell]

/-! ### Basic lemmas about column lookup and replacement -/

theorem lookupCol_setCol (t : Table) (n : String) (x : Column) :
    lookupCol (setCol t n x) n = (lookupCol t n).map fun _ => x := by
  induction t with
  | nil => rfl
  | cons e rest ih =>
    obtain ⟨m, c⟩ := e
    have hmap : setCol ((m, c) :: rest) n x
        = (if m = n then (n, x) else (m, c)) :: setCol rest n x := rfl
    rw [hmap]
    by_cases h : m = n
    · rw [if_pos h]
      show (if n = n then some x else lookupCol (setCol rest n x) n)
          = Option.map (fun _ => x) (if m = n then some c else lookupCol rest n)
      rw [if_pos rfl, if_pos h]
      rfl
    · rw [if_neg h]
      show (if m = n then some c else lookupCol (setCol rest n x) n)
          = Option.map (fun _ => x) (if m = n then some c else lookupCol rest n)
      rw [if_neg h, if_neg h]
      exact ih

theorem setCol_setCol (t : Table) (n : String) (x : Column) :
    setCol (setCol t n x) n x = setCol t n x := by
  unfold setCol
  rw [List.map_map]
  refine List.map_congr_left fun e _ => ?_
  by_cases h : e.1 = n <;> simp [Function.comp, h]

theorem getElem?_setCol (t : Table) (n : String) (x : Column) (i : ℕ) :
    (setCol t n x)[i]? = (t[i]?).map fun e => if e.1 = n then (n, x) else e := by
  unfold setCol
  rw [List.getElem?_map]

theorem lookupCol_eq_of_getElem? (t : Table) (hnd : (t.map Prod.fst).Nodup)
    (i : ℕ) (e : String × Column) (h : t[i]? = some e) :
    lookupCol t e.1 = some e.2 := by
  induction t generalizing i with
  | nil => simp at h
  | cons hd rest ih =>
    obtain ⟨m, c⟩ := hd
    rw [List.map_cons, List.nodup_cons] at hnd
    cases i with
    | zero =>
      simp only [List.getElem?_cons_zero, Option.some.injEq] at h
      subst h
      simp [lookupCol]
    | succ j =>
      rw [List.getElem?_cons_succ] at h
      have hmem : e ∈ rest := List.getElem?_mem h
      have hne : m ≠ e.1 := by
        intro hm
        apply hnd.1
        rw [hm]
        exact List.mem_map.mpr ⟨e, hmem, rfl⟩
      show (if m = e.1 then some c else lookupCol rest e.1) = some e.2
      rw [if_neg hne]
      exact ih hnd.2 j h

/-- Inversion of a successful sanitization: the column was found, it was
numeric, and the result replaces it by its pointwise rounding. -/
theorem sanitize_ok_inv (t t' : Table) (c : String) (p : ℤ)
    (h : sanitize_number_variance t c p = .ok t') :
    ∃ col, lookupCol t c = some col ∧ is_numeric_dtype col.dtype = true ∧
      t' = setCol t c ⟨col.dtype, col.cells.map (roundCell p)⟩ := by
  unfold sanitize_number_variance at h
  split at h
  · simp at h
  next col heq =>
    split at h
    next hn => exact ⟨col, heq, hn, (Except.ok.inj h).symm⟩
    next hn => simp at h

end NumberVariance

namespace NumberVariance

/-! ### The claims -/

/-- Claim C1: for every table, every name of a numeric column, and every
integer precision (negative, zero or positive), sanitization succeeds and
replaces each non-null value `v` of that column by
`round_half_to_even(v, precision)`: afterwards the target column is the
pointwise rounding of the original one. -/
theorem sanitize_rounds_each_value (t : Table) (c : String) (p : ℤ)
    (col : Column)
    (hcol : lookupCol t c = some col)
    (hnum : is_numeric_dtype col.dtype = true) :
    ∃ t', sanitize_number_variance t c p = .ok t' ∧
      lookupCol t' c = some ⟨col.dtype, col.cells.map (roundCell p)⟩ ∧
      ∀ (i : ℕ) (q : ℚ), col.cells[i]? = some (Cell.cnum q) →
        (col.cells.map (roundCell p))[i]? =
          some (Cell.cnum (roundToPrec p q)) := by
  refine ⟨setCol t c ⟨col.dtype, col.cells.map (roundCell p)⟩, ?_, ?_, ?_⟩
  · simp [sanitize_number_variance, hcol, hnum]
  · rw [lookupCol_setCol, hcol]
    rfl
  · intro i q hq
    rw [List.getElem?_map, hq]
    rfl

/-- Claim C2: sanitizing a column `c` of a table leaves every column
other than `c` identical, keeps the column names and their order, and
keeps the row count and the row order: position `i` of the table still
holds a column of the same name and the same number of cells, and the
cell at each row index `j` of the target column is derived from the cell
at the same row index of the original. -/
theorem sanitize_column_isolation (t t' : Table) (c : String) (p : ℤ)
    (hnd : (t.map Prod.fst).Nodup)
    (h : sanitize_number_variance t c p = .ok t') :
    t'.length = t.length ∧
    ∀ (i : ℕ) (e e2 : String × Column), t[i]? = some e → t'[i]? = some e2 →
      e2.1 = e.1 ∧ e2.2.cells.length = e.2.cells.length ∧
      (e.1 ≠ c → e2 = e) ∧
      (e.1 = c →
        ∀ (j : ℕ), e2.2.cells[j]? = (e.2.cells[j]?).map (roundCell p)) := by
  obtain ⟨col, hc, hn, ht'⟩ := sanitize_ok_inv t t' c p h
  subst ht'
  refine ⟨by simp [setCol], ?_⟩
  intro i e e2 he he2
  rw [getElem?_setCol, he] at he2
  have he2' :
      (if e.1 = c then (c, (⟨col.dtype, col.cells.map (roundCell p)⟩ : Column))
        else e) = e2 :=
    Option.some.inj he2
  by_cases hec : e.1 = c
  · have hcole : col = e.2 := by
      have hl := lookupCol_eq_of_getElem? t hnd i e he
      rw [hec, hc] at hl
      exact Option.some.inj hl
    rw [if_pos hec] at he2'
    subst he2'
    refine ⟨hec.symm, ?_, fun hne => absurd hec hne, fun _ j => ?_⟩
    · simp [hcole]
    · rw [← hcole]
      exact List.getElem?_map (roundCell p) col.cells j
  · rw [if_neg hec] at he2'
    subst he2'
    exact ⟨rfl, rfl, fun _ => rfl, fun heq => absurd heq hec⟩

/-- Claim C3: sanitizing an existing column whose element type is not
numeric (e.g. a string column) always fails with the `NotNumericColumn`
error naming the column and its type; no table is produced, so nothing
is coerced or mutated. -/
theorem sanitize_non_numeric_fails (t : Table) (c : String) (p : ℤ)
    (col : Column)
    (hcol : lookupCol t c = some col)
    (hnum : is_numeric_dtype col.dtype = false) :
    sanitize_number_variance t c p = .error (.notNumericColumn c col.dtype) := by
  simp [sanitize_number_variance, hcol, hnum]

/-- Claim C4: sanitizing a column name absent from the table always fails
with the `ColumnNotFound` error naming the missing column; the failure is
raised by the very first access, before any mutation, and no table is
produced. -/
theorem sanitize_missing_column_fails (t : Table) (c : String) (p : ℤ)
    (hcol : lookupCol t c = none) :
    sanitize_number_variance t c p = .error (.columnNotFound c) := by
  simp [sanitize_number_variance, hcol]

/-- Claim C5: sanitization is idempotent: whenever
`sanitize(T, c, P) = T'`, sanitizing `T'` again at the same column and
precision returns `T'` unchanged. -/
theorem sanitize_idempotent (t t' : Table) (c : String) (p : ℤ)
    (h : sanitize_number_variance t c p = .ok t') :
    sanitize_number_variance t' c p = .ok t' := by
  obtain ⟨col, hc, hn, ht'⟩ := sanitize_ok_inv t t' c p h
  subst ht'
  have hl : lookupCol (setCol t c ⟨col.dtype, col.cells.map (roundCell p)⟩) c
      = some ⟨col.dtype, col.cells.map (roundCell p)⟩ := by
    rw [lookupCol_setCol, hc]
    rfl
  have hmapmap : (col.cells.map (roundCell p)).map (roundCell p)
      = col.cells.map (roundCell p) := by
    rw [List.map_map]
    exact List.map_congr_left fun a _ => roundCell_idem p a
  simp [sanitize_number_variance, hl, hn, hmapmap, setCol_setCol]

/-- Claim C6: null/missing values pass through sanitization unchanged:
they are neither coerced to zero nor dropped, and the set of null row
positions of the target column is the same before and after. -/
theorem sanitize_null_passthrough (t t' : Table) (c : String) (p : ℤ)
    (col col2 : Column)
    (hcol : lookupCol t c = some col)
    (h : sanitize_number_variance t c p = .ok t')
    (hcol2 : lookupCol t' c = some col2) :
    col2.cells.length = col.cells.length ∧
    ∀ (i : ℕ),
      col2.cells[i]? = some Cell.cnull ↔ col.cells[i]? = some Cell.cnull := by
  obtain ⟨col0, hc0, hn0, ht'⟩ := sanitize_ok_inv t t' c p h
  rw [hcol] at hc0
  have hcc : col0 = col := (Option.some.inj hc0).symm
  subst hcc
  subst ht'
  rw [lookupCol_setCol, hcol] at hcol2
  have h2 : (⟨col0.dtype, col0.cells.map (roundCell p)⟩ : Column) = col2 :=
    Option.some.inj hcol2
  subst h2
  refine ⟨by simp, fun i => ?_⟩
  show (col0.cells.map (roundCell p))[i]? = some Cell.cnull ↔ _
  rw [List.getElem?_map]
  cases hcell : col0.cells[i]? with
  | none => simp
  | some cell => simp [roundCell_eq_cnull]

/-- Claim C7: once the Sanitizer runs, it gates the Writer: when it fails,
the Writer is never reached (nothing is written) and the process exits
with status 1; when it succeeds, the program writes the sanitized table
and exits with status 0. -/
theorem runMain_sanitizer_gates_writer (a : Args) (fs : String → Option Table)
    (ft : FileType) (df : Table)
    (hft : resolveFileType a = some ft)
    (hfs : fs a.input_file = some df) :
    (∀ e, sanitize_number_variance df a.column_name a.precision = .error e →
        runMain a fs = ⟨1, some (.sanitizeFailed e), none⟩) ∧
    (∀ df2, sanitize_number_variance df a.column_name a.precision = .ok df2 →
        runMain a fs = ⟨0, none, some ⟨outputPath a, ft, df2⟩⟩) := by
  constructor <;> intro x hx <;> simp [runMain, hft, hfs, hx]

/-- Claim C8: when the input path has no recognized `.csv`/`.json`
extension and `--file_type` is not given, the run fails with the
unknown-file-type error and exit status 1, independently of the
filesystem: the input file is never read and no output is written. -/
theorem runMain_unknown_file_type (a : Args) (fs : String → Option Table)
    (hty : a.file_type = none)
    (hinf : inferFileType a.input_file = none) :
    runMain a fs = ⟨1, some MainError.unknownFileType, none⟩ := by
  have hres : resolveFileType a = none := by
    simp [resolveFileType, hty, hinf]
  simp [runMain, hres]

/-- Claim C9: a boolean column passes the numeric-dtype check even though
its element type is neither integer nor floating-point: sanitizing it
does not fail with `NotNumericColumn` (nor in any other way) and the
rounding transform is applied. -/
theorem sanitize_bool_column_succeeds (t : Table) (c : String) (p : ℤ)
    (col : Column)
    (hcol : lookupCol t c = some col)
    (hb : col.dtype = DType.dbool) :
    ∃ t', sanitize_number_variance t c p = .ok t' := by
  have hn : is_numeric_dtype col.dtype = true := by rw [hb]; rfl
  exact ⟨setCol t c ⟨col.dtype, col.cells.map (roundCell p)⟩,
    by simp [sanitize_number_variance, hcol, hn]⟩

/-- Claim C10: whenever a run writes an output file, the serialization
format of the write is the input's resolved file type (the `--file_type`
flag or the input extension) and never depends on the `--output_file`
path, which only selects where the file is written. -/
theorem runMain_output_format_follows_input (a : Args)
    (fs : String → Option Table) (w : WriteEvent)
    (h : (runMain a fs).written = some w) :
    resolveFileType a = some w.format ∧ w.path = outputPath a := by
  unfold runMain at h
  split at h
  · simp at h
  next ft hft =>
    split at h
    · simp at h
    next df hfs =>
      split at h
      next e hs => simp at h
      next df2 hs =>
        have hw : (⟨outputPath a, ft, df2⟩ : WriteEvent) = w := Option.some.inj h
        rw [← hw]
        exact ⟨hft, rfl⟩

end NumberVariance

namespace NumberVariance

/-! ### Witnesses: each claim theorem applied at a concrete input -/

theorem sanitize_rounds_each_value_witness :
    ∃ t', sanitize_number_variance
        [("price", ⟨.dfloat, [.cnum (3/2), .cnull]⟩)] "price" 1 = .ok t' ∧
      lookupCol t' "price"
        = some ⟨DType.dfloat, [Cell.cnum (3/2), Cell.cnull].map (roundCell 1)⟩ ∧
      ∀ (i : ℕ) (q : ℚ),
        ([Cell.cnum (3/2), Cell.cnull] : List Cell)[i]? = some (Cell.cnum q) →
        (([Cell.cnum (3/2), Cell.cnull] : List Cell).map (roundCell 1))[i]?
          = some (Cell.cnum (roundToPrec 1 q)) :=
  sanitize_rounds_each_value _ "price" 1 ⟨.dfloat, [.cnum (3/2), .cnull]⟩ rfl rfl

theorem sanitize_column_isolation_witness :
    ([("a", ⟨.dint, [.cnum (roundToPrec 0 1)]⟩),
      ("b", ⟨.dobject, [.cstr "x"]⟩)] : Table).length
      = ([("a", ⟨.dint, [.cnum 1]⟩), ("b", ⟨.dobject, [.cstr "x"]⟩)] : Table).length ∧
    ∀ (i : ℕ) (e e2 : String × Column),
      ([("a", ⟨.dint, [.cnum 1]⟩), ("b", ⟨.dobject, [.cstr "x"]⟩)] : Table)[i]?
        = some e →
      ([("a", ⟨.dint, [.cnum (roundToPrec 0 1)]⟩),
        ("b", ⟨.dobject, [.cstr "x"]⟩)] : Table)[i]? = some e2 →
      e2.1 = e.1 ∧ e2.2.cells.length = e.2.cells.length ∧
      (e.1 ≠ "a" → e2 = e) ∧
      (e.1 = "a" →
        ∀ (j : ℕ), e2.2.cells[j]? = (e.2.cells[j]?).map (roundCell 0)) :=
  sanitize_column_isolation
    [("a", ⟨.dint, [.cnum 1]⟩), ("b", ⟨.dobject, [.cstr "x"]⟩)]
    [("a", ⟨.dint, [.cnum (roundToPrec 0 1)]⟩), ("b", ⟨.dobject, [.cstr "x"]⟩)]
    "a" 0 (by decide) rfl

theorem sanitize_non_numeric_fails_witness :
    sanitize_number_variance [("name", ⟨.dobject, [.cstr "bob"]⟩)] "name" 0
      = .error (.notNumericColumn "name" DType.dobject) :=
  sanitize_non_numeric_fails _ "name" 0 ⟨.dobject, [.cstr "bob"]⟩ rfl rfl

theorem sanitize_missing_column_fails_witness :
    sanitize_number_variance [("a", ⟨.dint, [.cnum 1]⟩)] "weight" 0
      = .error (.columnNotFound "weight") :=
  sanitize_missing_column_fails _ "weight" 0 rfl

theorem sanitize_idempotent_witness :
    sanitize_number_variance
        [("p", ⟨.dfloat, [.cnum (roundToPrec 0 (5/2))]⟩)] "p" 0
      = .ok [("p", ⟨.dfloat, [.cnum (roundToPrec 0 (5/2))]⟩)] :=
  sanitize_idempotent [("p", ⟨.dfloat, [.cnum (5/2)]⟩)] _ "p" 0 rfl

theorem sanitize_null_passthrough_witness :
    ([Cell.cnull, Cell.cnum (roundToPrec 0 2)] : List Cell).length
      = ([Cell.cnull, Cell.cnum 2] : List Cell).length ∧
    ∀ (i : ℕ),
      ([Cell.cnull, Cell.cnum (roundToPrec 0 2)] : List Cell)[i]? = some Cell.cnull
        ↔ ([Cell.cnull, Cell.cnum 2] : List Cell)[i]? = some Cell.cnull :=
  sanitize_null_passthrough
    [("lat", ⟨.dfloat, [.cnull, .cnum 2]⟩)]
    [("lat", ⟨.dfloat, [.cnull, .cnum (roundToPrec 0 2)]⟩)]
    "lat" 0 ⟨.dfloat, [.cnull, .cnum 2]⟩
    ⟨.dfloat, [.cnull, .cnum (roundToPrec 0 2)]⟩ rfl rfl rfl

theorem runMain_sanitizer_gates_writer_witness :
    runMain ⟨"in.csv", "name", 0, none, some .csv⟩
        (fun s => if s = "in.csv"
          then some [("name", ⟨.dobject, [.cstr "x"]⟩)] else none)
      = ⟨1, some (.sanitizeFailed (.notNumericColumn "name" DType.dobject)), none⟩ :=
  (runMain_sanitizer_gates_writer ⟨"in.csv", "name", 0, none, some .csv⟩
      (fun s => if s = "in.csv"
        then some [("name", ⟨.dobject, [.cstr "x"]⟩)] else none)
      FileType.csv [("name", ⟨.dobject, [.cstr "x"]⟩)] rfl rfl).1
    (.notNumericColumn "name" DType.dobject) rfl

theorem runMain_unknown_file_type_witness :
    runMain ⟨"data", "sales", 0, none, none⟩ (fun _ => none)
      = ⟨1, some MainError.unknownFileType, none⟩ :=
  runMain_unknown_file_type ⟨"data", "sales", 0, none, none⟩ (fun _ => none)
    rfl (by decide)

theorem sanitize_bool_column_succeeds_witness :
    ∃ t', sanitize_number_variance [("flag", ⟨.dbool, [.cbool true]⟩)] "flag" 0
      = .ok t' :=
  sanitize_bool_column_succeeds _ "flag" 0 ⟨.dbool, [.cbool true]⟩ rfl rfl

theorem runMain_output_format_follows_input_witness :
    resolveFileType ⟨"in.csv", "p", 0, some "out.json", some .csv⟩
        = some FileType.csv ∧
    "out.json" = outputPath ⟨"in.csv", "p", 0, some "out.json", some .csv⟩ :=
  runMain_output_format_follows_input
    ⟨"in.csv", "p", 0, some "out.json", some .csv⟩
    (fun s => if s = "in.csv" then some [("p", ⟨.dfloat, [.cnull]⟩)] else none)
    ⟨"out.json", .csv, [("p", ⟨.dfloat, [.cnull]⟩)]⟩ rfl

end NumberVariance
